import Mathlib

/-!
Verification of the identity-svc Token Issuance and Verification Engine.

This file gives a shallow embedding, in Lean 4, of the parts of the
repository that the specification talks about:

- the domain entity `User` and the credential validation rules
  (domain/entities/user.py);
- the in-memory view of the user repository used by the handlers
  (lookup by username, by id, existence checks);
- JWT minting and decoding as performed through the python-jose library
  (jwt.encode / jwt.decode).  Real RSA arithmetic is abstracted: a key
  pair is modelled by a single shared identifier, signing embeds that
  identifier in the token and verification compares it.  The claim
  payload is a finite association list, mirroring the Python dict in
  insertion order;
- `AuthenticationService.verify_token` (application/auth_service.py);
- `get_current_user` (interfaces/api/dependencies.py);
- `LoginCommandHandler.handle` (application/commands/login_command.py);
- `CreateTokenCommandHandler.handle`
  (application/commands/create_token_command.py);
- `VerifyAndRefreshTokenCommandHandler.handle`
  (application/commands/verify_and_refresh_token_command.py);
- `RegisterUserCommandHandler.handle`
  (application/commands/register_user_command.py);
- `RSAKeyManager.get_jwks` (infraestructure/crypto/rsa_manager.py),
  including a faithful model of Python base64.urlsafe_b64encode with
  padding stripped;
- the passlib `CryptContext.verify` call used by `_verify_password`
  (the context is configured with the single scheme bcrypt; passlib
  raises UnknownHashError when the stored hash cannot be identified as
  a hash of a configured scheme, and only returns a Bool on hashes it
  can identify).

Time is modelled in whole seconds (Unix style).  The source reads the
clock twice inside `_create_token` (once for exp, once for iat), a few
microseconds apart; at the whole-second granularity of JWT timestamps
both reads are the same instant, so the model passes a single `now`.
-/

/-! ## Domain entities (domain/entities/user.py) -/

inductive UserRole where
  | admin
  | user
  | guest
deriving DecidableEq, Repr

/-- The string value of a role, as in the Python str-Enum. -/
def UserRole.value : UserRole → String
  | .admin => "admin"
  | .user => "user"
  | .guest => "guest"

structure User where
  id : String
  username : String
  email : String
  hashed_password : String
  roles : List UserRole
  is_active : Bool
deriving DecidableEq, Repr

/-- UserCredentials.validate: returns the list of violated rules.
Mirrors the two checks of the Python source, in order. -/
def validate_credentials (username password : String) : List String :=
  (if username = "" ∨ username.length < 3 then
    ["Username must be at least 3 characters long"] else []) ++
  (if password = "" ∨ password.length < 6 then
    ["Password must be at least 6 characters long"] else [])

/-! ## Repository view (domain/repositories/user_repository.py)

The repository is modelled as the list of stored users; the lookups
mirror the interface consumed by the handlers. -/

def get_by_username (repo : List User) (username : String) : Option User :=
  repo.find? (fun u => u.username == username)

def get_by_id (repo : List User) (id : String) : Option User :=
  repo.find? (fun u => u.id == id)

def exists_by_username (repo : List User) (username : String) : Bool :=
  repo.any (fun u => u.username == username)

def exists_by_email (repo : List User) (email : String) : Bool :=
  repo.any (fun u => u.email == email)

/-! ## JWT model (python-jose jwt.encode / jwt.decode) -/

/-- A JSON-ish claim value as stored in a token payload. -/
inductive ClaimValue where
  | str (s : String)
  | num (n : Nat)
  | strList (l : List String)
deriving DecidableEq, Repr

/-- A claim payload: the Python dict, kept in insertion order. -/
abbrev Payload := List (String × ClaimValue)

/-- dict.get on a payload (keys are unique by construction). -/
def getClaim (p : Payload) (k : String) : Option ClaimValue :=
  (p.find? (fun kv => kv.1 == k)).map (fun kv => kv.2)

/-- Python truthiness of an optional claim value, as used by the
checks of the form `if not user_id:` in the source. -/
def claimTruthy : Option ClaimValue → Bool
  | none => false
  | some (.str s) => s ≠ ""
  | some (.num n) => n ≠ 0
  | some (.strList l) => l ≠ []

/-- A signed compact token: the claim payload plus the identifier of
the key pair whose private half signed it. -/
structure SignedToken where
  payload : Payload
  sigKey : Nat
deriving DecidableEq, Repr

/-- A token string on the wire: either not even a well-formed
three-segment JWT, or a signed token. -/
inductive TokenWire where
  | malformed (raw : String)
  | signed (t : SignedToken)
deriving DecidableEq, Repr

def TokenWire.payloadOf : TokenWire → Payload
  | .malformed _ => []
  | .signed t => t.payload

/-- The failure conditions python-jose raises from jwt.decode, with
the message each carries (all are subclasses of JWTError). -/
inductive JoseError where
  | expiredSignature
  | signatureFailed
  | notEnoughSegments
  | claimsError
deriving DecidableEq, Repr

def JoseError.message : JoseError → String
  | .expiredSignature => "Signature has expired."
  | .signatureFailed => "Signature verification failed."
  | .notEnoughSegments => "Not enough segments"
  | .claimsError => "Expiration Time claim (exp) must be an integer."

/-- jwt.encode: sign a payload with the private key. -/
def jwt_encode (privKey : Nat) (payload : Payload) : TokenWire :=
  .signed ⟨payload, privKey⟩

/-- jwt.decode: checks the signature against the public key first,
then validates the exp claim (python-jose treats a token as expired
exactly when exp is strictly less than now; a payload without an exp
claim skips the check).  On success the full payload is returned. -/
def jwt_decode (token : TokenWire) (pubKey : Nat) (now : Nat) :
    Except JoseError Payload :=
  match token with
  | .malformed _ => .error .notEnoughSegments
  | .signed t =>
    if t.sigKey = pubKey then
      match getClaim t.payload "exp" with
      | some (.num e) =>
        if e < now then .error .expiredSignature else .ok t.payload
      | some _ => .error .claimsError
      | none => .ok t.payload
    else
      .error .signatureFailed

/-! ## Application-level error conditions

Each constructor is one of the exception classes the application code
raises; the payload is the message the exception carries. -/

inductive AppError where
  | authenticationError (msg : String)
  | tokenVerificationError (msg : String)
  | registrationError (msg : String)
deriving DecidableEq, Repr

def AppError.msg : AppError → String
  | .authenticationError m => m
  | .tokenVerificationError m => m
  | .registrationError m => m

/-- The Python exception class of the error of a failed computation,
if it failed.  This is exactly what an `except SomeClass:` clause in a
caller can discriminate on. -/
def exceptionClass {α : Type} : Except AppError α → Option String
  | .ok _ => none
  | .error (.authenticationError _) => some "AuthenticationError"
  | .error (.tokenVerificationError _) => some "TokenVerificationError"
  | .error (.registrationError _) => some "RegistrationError"

/-! ## AuthenticationService.verify_token (application/auth_service.py)

Decodes the token; every JWTError is caught and re-raised as a single
AuthenticationError wrapping the jose message. -/

def verify_token (pubKey : Nat) (now : Nat) (token : TokenWire) :
    Except AppError Payload :=
  match jwt_decode token pubKey now with
  | .ok payload => .ok payload
  | .error e => .error (.authenticationError ("Invalid token: " ++ e.message))

/-! ## get_current_user (interfaces/api/dependencies.py) -/

structure HTTPErr where
  status : Nat
  detail : String
deriving DecidableEq, Repr

/-- Resolve the current user from a bearer token: verify_token, then
read the sub claim (falsy sub is rejected), then load the user by id.
AuthenticationError from verify_token is mapped to a 401 whose detail
is the exception message.  Note: the type claim of the token is never
inspected on this path. -/
def get_current_user (repo : List User) (pubKey : Nat) (now : Nat)
    (token : TokenWire) : Except HTTPErr User :=
  match verify_token pubKey now token with
  | .error e => .error ⟨401, e.msg⟩
  | .ok payload =>
    let userId := getClaim payload "sub"
    if claimTruthy userId then
      match userId with
      | some (.str s) =>
        (match get_by_id repo s with
         | some u => .ok u
         | none => .error ⟨401, "User not found"⟩)
      | _ =>
        -- a truthy non-string sub never matches a stored string id
        .error ⟨401, "User not found"⟩
    else
      .error ⟨401, "Invalid token"⟩

/-! ## LoginCommandHandler.handle (application/commands/login_command.py)

The password check is delegated to passlib CryptContext.verify; on the
login path the stored hash was produced by the registration path, so
the call returns a Bool, modelled by the oracle `verifyPwd`. -/

structure LoginResult where
  user : User
  success : Bool
  message : String
deriving DecidableEq, Repr

def loginHandle (repo : List User) (verifyPwd : String → String → Bool)
    (username password : String) : Except AppError LoginResult :=
  match get_by_username repo username with
  | none => .error (.authenticationError "Invalid username or password")
  | some user =>
    if user.is_active = false then
      .error (.authenticationError "User account is inactive")
    else if verifyPwd password user.hashed_password = false then
      .error (.authenticationError "Invalid username or password")
    else
      .ok ⟨user, true, "User authenticated successfully"⟩

/-! ## CreateTokenCommandHandler.handle
(application/commands/create_token_command.py) -/

structure TokenConfig where
  access_token_expire_minutes : Nat
  refresh_token_expire_days : Nat
deriving DecidableEq, Repr

/-- Python `command.scopes or ["read", "write"]`: None and the empty
list are both falsy and give the default. -/
def scopesOrDefault : Option (List String) → List String
  | none => ["read", "write"]
  | some [] => ["read", "write"]
  | some l => l

/-- The claim dict built for an access token, in insertion order. -/
def accessTokenData (u : User) (scopes : Option (List String)) : Payload :=
  [("sub", .str u.id),
   ("username", .str u.username),
   ("email", .str u.email),
   ("roles", .strList (u.roles.map UserRole.value)),
   ("scopes", .strList (scopesOrDefault scopes)),
   ("type", .str "access_token")]

/-- The claim dict built for a refresh token, in insertion order. -/
def refreshTokenData (u : User) : Payload :=
  [("sub", .str u.id),
   ("type", .str "refresh_token")]

/-- _create_token: copy the data dict and append the exp and iat
claims, then sign with the private key. -/
def create_token (privKey : Nat) (now : Nat) (data : Payload)
    (expiresDelta : Nat) : TokenWire :=
  jwt_encode privKey (data ++ [("exp", .num (now + expiresDelta)), ("iat", .num now)])

structure CreateTokenResult where
  token : TokenWire
  expires_in : Nat
  token_type : String
deriving DecidableEq, Repr

def createTokenHandle (cfg : TokenConfig) (privKey : Nat) (now : Nat)
    (user : User) (token_type : String) (scopes : Option (List String)) :
    CreateTokenResult :=
  if token_type = "access" then
    ⟨create_token privKey now (accessTokenData user scopes)
      (cfg.access_token_expire_minutes * 60),
     cfg.access_token_expire_minutes * 60, "Bearer"⟩
  else
    ⟨create_token privKey now (refreshTokenData user)
      (cfg.refresh_token_expire_days * 24 * 60 * 60),
     cfg.refresh_token_expire_days * 24 * 60 * 60, "Bearer"⟩

/-! ## VerifyAndRefreshTokenCommandHandler.handle
(application/commands/verify_and_refresh_token_command.py) -/

structure RefreshResult where
  access_token : TokenWire
  refresh_token : TokenWire
  token_type : String
  expires_in : Nat
deriving DecidableEq, Repr

/-- The refresh exchange: decode (JWTError becomes
TokenVerificationError), check the type claim, extract sub (falsy sub
rejected), re-load the user, check it is active, mint a fresh access
token and return it with the incoming refresh token unchanged. -/
def refreshHandle (cfg : TokenConfig) (repo : List User)
    (privKey pubKey : Nat) (now : Nat) (refresh_token : TokenWire) :
    Except AppError RefreshResult :=
  match jwt_decode refresh_token pubKey now with
  | .error e =>
    .error (.tokenVerificationError ("Invalid refresh token: " ++ e.message))
  | .ok payload =>
    if getClaim payload "type" ≠ some (.str "refresh_token") then
      .error (.tokenVerificationError "Invalid token type")
    else
      let userId := getClaim payload "sub"
      if claimTruthy userId then
        match userId with
        | some (.str s) =>
          (match get_by_id repo s with
           | none => .error (.tokenVerificationError "User not found")
           | some user =>
             if user.is_active = false then
               .error (.tokenVerificationError "User account is inactive")
             else
               let r := createTokenHandle cfg privKey now user "access" none
               .ok ⟨r.token, refresh_token, r.token_type, r.expires_in⟩)
        | _ => .error (.tokenVerificationError "User not found")
      else
        .error (.tokenVerificationError "Invalid token payload")

/-! ## RegisterUserCommandHandler.handle
(application/commands/register_user_command.py) -/

structure RegisterResult where
  user : User
  success : Bool
  message : String
deriving DecidableEq, Repr

/-- Python `command.roles or [UserRole.USER]`. -/
def rolesOrDefault : Option (List UserRole) → List UserRole
  | none => [.user]
  | some [] => [.user]
  | some rs => rs

/-- A single-quote character, used inside the duplicate messages. -/
def squote : String := String.singleton (Char.ofNat 39)

/-- Registration: validate the credentials, check handle and address
uniqueness, then hash the password and persist the new user.  The
fresh uuid and the bcrypt hash are inputs of the model.  Returns the
result together with the updated store. -/
def registerHandle (repo : List User) (hashPwd : String → String)
    (newId : String) (username email password : String)
    (roles : Option (List UserRole)) :
    Except AppError (RegisterResult × List User) :=
  let errors := validate_credentials username password
  if errors ≠ [] then
    .error (.registrationError
      ("Validation failed: " ++ String.intercalate ", " errors))
  else if exists_by_username repo username then
    .error (.registrationError
      ("Username " ++ squote ++ username ++ squote ++ " already exists"))
  else if exists_by_email repo email then
    .error (.registrationError
      ("Email " ++ squote ++ email ++ squote ++ " already exists"))
  else
    let user : User := ⟨newId, username, email, hashPwd password,
      rolesOrDefault roles, true⟩
    .ok (⟨user, true, "User registered successfully"⟩, repo ++ [user])

/-! ## passlib CryptContext.verify, schemes=[bcrypt]

CryptContext.verify first identifies which configured scheme the
stored hash belongs to.  A bcrypt hash is identified by one of the
bcrypt ident prefixes; when the hash cannot be identified, passlib
raises UnknownHashError instead of returning a Bool.  The actual
bcrypt comparison on an identified hash is the oracle `bcryptCheck`. -/

inductive PasslibError where
  | unknownHash
deriving DecidableEq, Repr

def bcryptIdents : List String :=
  ["$2$", "$2a$", "$2b$", "$2x$", "$2y$"]

def bcryptIdentified (hash : String) : Bool :=
  bcryptIdents.any (fun p => p.toList.isPrefixOf hash.toList)

def cryptContextVerify (bcryptCheck : String → String → Bool)
    (secret hash : String) : Except PasslibError Bool :=
  if bcryptIdentified hash then .ok (bcryptCheck secret hash)
  else .error .unknownHash

/-- LoginCommandHandler._verify_password: a direct delegation to
CryptContext.verify (no exception handling around it). -/
def verify_password (bcryptCheck : String → String → Bool)
    (plain_password hashed_password : String) : Except PasslibError Bool :=
  cryptContextVerify bcryptCheck plain_password hashed_password

/-! ## RSAKeyManager.get_jwks (infraestructure/crypto/rsa_manager.py)

The JWK is a pure function of the public numbers (modulus n, exponent
e) of the stored RSA public key.  int_to_base64url mirrors the inner
Python helper: big-endian minimal-length bytes of the integer, encoded
with base64.urlsafe_b64encode, with the trailing padding stripped. -/

structure RSAPublicNumbers where
  n : Nat
  e : Nat
deriving DecidableEq, Repr

structure Jwk where
  kty : String
  use : String
  kid : String
  alg : String
  n : String
  e : String
deriving DecidableEq, Repr

structure Jwks where
  keys : List Jwk
deriving DecidableEq, Repr

/-- Python int.bit_length. -/
def bit_length : Nat → Nat
  | 0 => 0
  | n + 1 => bit_length ((n + 1) / 2) + 1

/-- Big-endian byte representation of n over the given length. -/
def natToBytesBE (n len : Nat) : List Nat :=
  (List.range len).map (fun i => n / 256 ^ (len - 1 - i) % 256)

/-- The urlsafe base64 alphabet, in index order. -/
def b64Alphabet : List Char :=
  "ABCDEFGHIJKLMNOPQRSTUVWXYZabcdefghijklmnopqrstuvwxyz0123456789-_".toList

def b64Char (i : Nat) : Char := b64Alphabet.getD i 'A'

/-- base64 encoding of a byte list, three bytes to four characters,
with padding on the final partial group. -/
def b64EncodeGroups : List Nat → List Char
  | [] => []
  | [b1] => [b64Char (b1 / 4), b64Char (b1 % 4 * 16), '=', '=']
  | [b1, b2] =>
    [b64Char (b1 / 4), b64Char (b1 % 4 * 16 + b2 / 16),
     b64Char (b2 % 16 * 4), '=']
  | b1 :: b2 :: b3 :: rest =>
    b64Char (b1 / 4) :: b64Char (b1 % 4 * 16 + b2 / 16) ::
    b64Char (b2 % 16 * 4 + b3 / 64) :: b64Char (b3 % 64) ::
    b64EncodeGroups rest

/-- Python bytes.rstrip applied to the padding character. -/
def rstripEq (cs : List Char) : List Char :=
  (cs.reverse.dropWhile (fun c => c = '=')).reverse

/-- int_to_base64url from get_jwks. -/
def int_to_base64url (n : Nat) : String :=
  let byteLength := (bit_length n + 7) / 8
  String.mk (rstripEq (b64EncodeGroups (natToBytesBE n byteLength)))

/-- get_jwks: the published JWKS document, built from the public
numbers only (the private key never reaches this function). -/
def get_jwks (pub : RSAPublicNumbers) : Jwks :=
  ⟨[⟨"RSA", "sig", "identity-svc-key-1", "RS256",
     int_to_base64url pub.n, int_to_base64url pub.e⟩]⟩

/-! ## Concrete demonstration values used by witnesses -/

def aliceUser : User :=
  ⟨"alice-id", "alice", "alice@x.com", "$2b$12$storedhash", [.user], true⟩

def bobInactive : User :=
  ⟨"bob-id", "bob", "bob@x.com", "$2b$12$otherhash", [.admin, .user], false⟩

def demoRepo : List User := [aliceUser, bobInactive]

def demoCfg : TokenConfig := ⟨30, 7⟩

/-! ## Claim C1 -/

/-- A refresh token as minted by the create-token handler at time 500
for aliceUser, signed by key pair 7. -/
def refreshTokenForAlice : TokenWire :=
  (createTokenHandle demoCfg 7 500 aliceUser "refresh" none).token

/-- C1: evaluation of the code at the failing input.  A validly
signed, unexpired token whose type claim is refresh_token, presented
on the current-user resolution path, RESOLVES TO THE PRINCIPAL
instead of failing with an authentication error: get_current_user
never inspects the type claim. -/
theorem c1_refresh_token_resolves_to_principal :
    get_current_user demoRepo 7 1000 refreshTokenForAlice = .ok aliceUser := by
  rfl

/-! ## Claim C2 -/

/-- A token signed by key pair 7 whose exp (10) is in the past of the
verification clock (100). -/
def expiredTokenC2 : TokenWire :=
  .signed ⟨[("sub", .str "alice-id"), ("type", .str "access_token"),
            ("exp", .num 10), ("iat", .num 5)], 7⟩

/-- A token signed by a different key pair (8), i.e. an invalid
signature under public key 7, with a far-future exp. -/
def badSigTokenC2 : TokenWire :=
  .signed ⟨[("sub", .str "alice-id"), ("type", .str "access_token"),
            ("exp", .num 999999), ("iat", .num 5)], 8⟩

/-- C2 counterexample: at a concrete expired-but-validly-signed token
and a concrete badly-signed token, verify_token fails with the very
same exception class (AuthenticationError) in both cases; there is no
separate TokenExpired condition a caller could catch. -/
theorem c2_expired_and_invalid_same_condition :
    verify_token 7 100 expiredTokenC2 =
      .error (.authenticationError "Invalid token: Signature has expired.") ∧
    verify_token 7 100 badSigTokenC2 =
      .error (.authenticationError "Invalid token: Signature verification failed.") ∧
    exceptionClass (verify_token 7 100 expiredTokenC2) =
      exceptionClass (verify_token 7 100 badSigTokenC2) :=
  ⟨rfl, rfl, rfl⟩

/-- C2 amended: for every token with a valid signature whose exp has
passed, verify_token fails with AuthenticationError wrapping the
message Signature has expired, and for every token with a bad
signature it fails with the same AuthenticationError condition
wrapping Signature verification failed: the two failures share one
exception class and differ only in the embedded message text. -/
theorem c2_expiry_collapses_to_authentication_error
    (pub now : Nat) (t : SignedToken) (e : Nat)
    (hsig : t.sigKey = pub)
    (hexp : getClaim t.payload "exp" = some (.num e))
    (hlt : e < now) :
    verify_token pub now (.signed t) =
      .error (.authenticationError "Invalid token: Signature has expired.") ∧
    ∀ t2 : SignedToken, t2.sigKey ≠ pub →
      verify_token pub now (.signed t2) =
        .error (.authenticationError "Invalid token: Signature verification failed.") := by
  constructor
  · simp [verify_token, jwt_decode, hsig, hexp, hlt, JoseError.message]
  · intro t2 h2
    simp [verify_token, jwt_decode, h2, JoseError.message]

/-- Witness for the C2 amended theorem at concrete inputs. -/
theorem c2_expiry_collapses_witness :
    verify_token 7 100 expiredTokenC2 =
      .error (.authenticationError "Invalid token: Signature has expired.") :=
  (c2_expiry_collapses_to_authentication_error 7 100
    ⟨[("sub", .str "alice-id"), ("type", .str "access_token"),
      ("exp", .num 10), ("iat", .num 5)], 7⟩
    10 rfl rfl (by decide)).1

/-! ## Claim C3 -/

/-- C3: a login with an absent handle and a login with a present,
active handle but a non-matching secret fail with the very same
AuthenticationError value, carrying the identical message, so the two
runs are observationally indistinguishable to the caller. -/
theorem c3_login_failures_indistinguishable
    (repo : List User) (verifyPwd : String → String → Bool)
    (h1 h2 s1 s2 : String) (u : User)
    (habs : get_by_username repo h1 = none)
    (hfound : get_by_username repo h2 = some u)
    (hactive : u.is_active = true)
    (hwrong : verifyPwd s2 u.hashed_password = false) :
    loginHandle repo verifyPwd h1 s1 =
      .error (.authenticationError "Invalid username or password") ∧
    loginHandle repo verifyPwd h2 s2 =
      .error (.authenticationError "Invalid username or password") ∧
    loginHandle repo verifyPwd h1 s1 = loginHandle repo verifyPwd h2 s2 := by
  have e1 : loginHandle repo verifyPwd h1 s1 =
      .error (.authenticationError "Invalid username or password") := by
    simp [loginHandle, habs]
  have e2 : loginHandle repo verifyPwd h2 s2 =
      .error (.authenticationError "Invalid username or password") := by
    simp [loginHandle, hfound, hactive, hwrong]
  exact ⟨e1, e2, e1.trans e2.symm⟩

/-- Witness for C3: carol is absent from demoRepo, alice is present
and active, and the password oracle rejects the offered secret. -/
theorem c3_witness :
    loginHandle demoRepo (fun _ _ => false) "carol" "pw1" =
      .error (.authenticationError "Invalid username or password") ∧
    loginHandle demoRepo (fun _ _ => false) "alice" "pw2" =
      .error (.authenticationError "Invalid username or password") ∧
    loginHandle demoRepo (fun _ _ => false) "carol" "pw1" =
      loginHandle demoRepo (fun _ _ => false) "alice" "pw2" :=
  c3_login_failures_indistinguishable demoRepo (fun _ _ => false)
    "carol" "alice" "pw1" "pw2" aliceUser rfl rfl rfl rfl

/-! ## Claim C9 -/

/-- C9: when the stored principal is inactive, login fails with the
inactive-account error no matter what the password oracle would say
(the check precedes password verification), and that error is
distinguishable from the generic denial. -/
theorem c9_inactive_checked_before_password
    (repo : List User) (verifyPwd : String → String → Bool)
    (handle secret : String) (u : User)
    (hfound : get_by_username repo handle = some u)
    (hinactive : u.is_active = false) :
    loginHandle repo verifyPwd handle secret =
      .error (.authenticationError "User account is inactive") ∧
    AppError.authenticationError "User account is inactive" ≠
      AppError.authenticationError "Invalid username or password" := by
  constructor
  · simp [loginHandle, hfound, hinactive]
  · decide

/-- Witness for C9: bob is stored but inactive; even with an oracle
that would accept any password, login fails with the inactive-account
error. -/
theorem c9_witness :
    loginHandle demoRepo (fun _ _ => true) "bob" "goodpw" =
      .error (.authenticationError "User account is inactive") ∧
    AppError.authenticationError "User account is inactive" ≠
      AppError.authenticationError "Invalid username or password" :=
  c9_inactive_checked_before_password demoRepo (fun _ _ => true)
    "bob" "goodpw" bobInactive rfl rfl

/-! ## Claim C4 -/

/-- C4: a validly signed, unexpired token whose type claim is not
refresh_token makes the refresh exchange fail with
TokenVerificationError (message Invalid token type), and the outcome
is the same for every repository state: the kind check precedes any
subject extraction or principal lookup in the store. -/
theorem c4_refresh_rejects_wrong_kind_before_lookup
    (cfg : TokenConfig) (priv pub now : Nat) (t : SignedToken)
    (hdec : jwt_decode (.signed t) pub now = .ok t.payload)
    (hkind : getClaim t.payload "type" ≠ some (.str "refresh_token")) :
    ∀ repo : List User,
      refreshHandle cfg repo priv pub now (.signed t) =
        .error (.tokenVerificationError "Invalid token type") := by
  intro repo
  simp [refreshHandle, hdec, hkind]

/-- An access token as minted at time 500 for aliceUser by key 7. -/
def accessTokenC4 : SignedToken :=
  ⟨accessTokenData aliceUser none ++
    [("exp", .num (500 + 1800)), ("iat", .num 500)], 7⟩

/-- Witness for C4 at a concrete access token and the demo store. -/
theorem c4_witness :
    refreshHandle demoCfg demoRepo 7 7 1000 (.signed accessTokenC4) =
      .error (.tokenVerificationError "Invalid token type") :=
  c4_refresh_rejects_wrong_kind_before_lookup demoCfg 7 7 1000
    accessTokenC4 rfl (by decide) demoRepo

/-! ## Claim C5 -/

/-- C5: a valid refresh exchange returns a freshly minted access
token whose roles claim is the role set of the principal as re-loaded
from the store at refresh time, and the very token that was presented
comes back unchanged as the refresh half of the pair. -/
theorem c5_refresh_mints_current_roles_same_refresh
    (cfg : TokenConfig) (repo : List User) (priv pub now : Nat)
    (t : SignedToken) (s : String) (u : User)
    (hdec : jwt_decode (.signed t) pub now = .ok t.payload)
    (hkind : getClaim t.payload "type" = some (.str "refresh_token"))
    (hsub : getClaim t.payload "sub" = some (.str s))
    (hs : s ≠ "")
    (huser : get_by_id repo s = some u)
    (hactive : u.is_active = true) :
    refreshHandle cfg repo priv pub now (.signed t) =
      .ok ⟨(createTokenHandle cfg priv now u "access" none).token, .signed t,
           "Bearer", cfg.access_token_expire_minutes * 60⟩ ∧
    getClaim ((createTokenHandle cfg priv now u "access" none).token).payloadOf
        "roles" = some (.strList (u.roles.map UserRole.value)) := by
  constructor
  · simp [refreshHandle, hdec, hkind, hsub, claimTruthy, hs, huser, hactive,
      createTokenHandle]
  · rfl

/-- A refresh token for alice, as a SignedToken, minted at 500. -/
def refreshSignedForAlice : SignedToken :=
  ⟨refreshTokenData aliceUser ++
    [("exp", .num (500 + 604800)), ("iat", .num 500)], 7⟩

/-- Witness for C5 at the concrete refresh token and demo store. -/
theorem c5_witness :
    refreshHandle demoCfg demoRepo 7 7 1000 (.signed refreshSignedForAlice) =
      .ok ⟨(createTokenHandle demoCfg 7 1000 aliceUser "access" none).token,
           .signed refreshSignedForAlice, "Bearer", 1800⟩ ∧
    getClaim ((createTokenHandle demoCfg 7 1000 aliceUser "access" none).token).payloadOf
        "roles" = some (.strList [UserRole.value .user]) :=
  c5_refresh_mints_current_roles_same_refresh demoCfg demoRepo 7 7 1000
    refreshSignedForAlice "alice-id" aliceUser rfl rfl rfl (by decide) rfl rfl

/-! ## Claim C6 -/

/-- On a payload without an exp key, appending the exp and iat claims
makes exp retrievable with the appended value. -/
lemma getClaim_append_exp (data : Payload) (E I : Nat)
    (h : getClaim data "exp" = none) :
    getClaim (data ++ [("exp", .num E), ("iat", .num I)]) "exp" =
      some (.num E) := by
  unfold getClaim at h ⊢
  rcases hf : data.find? (fun kv => kv.1 == "exp") with _ | kv
  · rw [List.find?_append, hf]
    rfl
  · rw [hf] at h
    simp at h

/-- Verifying a token right after minting it with the same key pair
succeeds and returns the complete claim payload. -/
lemma verify_token_mint (priv now : Nat) (data : Payload) (delta : Nat)
    (h : getClaim data "exp" = none) :
    verify_token priv now (create_token priv now data delta) =
      .ok (data ++ [("exp", .num (now + delta)), ("iat", .num now)]) := by
  unfold verify_token jwt_decode create_token jwt_encode
  simp [getClaim_append_exp data (now + delta) now h,
    Nat.not_lt.mpr (Nat.le_add_right now delta)]

/-- C6: mint followed by verify recovers exactly the claim set passed
to mint.  The access token payload consists of exactly the claims
sub, username, email, roles, scopes, type (value access_token), exp
and iat; the refresh token payload of exactly sub, type (value
refresh_token), exp and iat, with no role or scope claims; in both,
iat is strictly before exp. -/
theorem c6_mint_verify_roundtrip
    (cfg : TokenConfig) (priv now : Nat) (u : User)
    (scopes : Option (List String))
    (hacc : 0 < cfg.access_token_expire_minutes)
    (href : 0 < cfg.refresh_token_expire_days) :
    verify_token priv now (createTokenHandle cfg priv now u "access" scopes).token =
      .ok [("sub", .str u.id), ("username", .str u.username),
           ("email", .str u.email),
           ("roles", .strList (u.roles.map UserRole.value)),
           ("scopes", .strList (scopesOrDefault scopes)),
           ("type", .str "access_token"),
           ("exp", .num (now + cfg.access_token_expire_minutes * 60)),
           ("iat", .num now)] ∧
    verify_token priv now (createTokenHandle cfg priv now u "refresh" none).token =
      .ok [("sub", .str u.id), ("type", .str "refresh_token"),
           ("exp", .num (now + cfg.refresh_token_expire_days * 24 * 60 * 60)),
           ("iat", .num now)] ∧
    now < now + cfg.access_token_expire_minutes * 60 ∧
    now < now + cfg.refresh_token_expire_days * 24 * 60 * 60 := by
  refine ⟨?_, ?_, by omega, by omega⟩
  · have := verify_token_mint priv now (accessTokenData u scopes)
      (cfg.access_token_expire_minutes * 60) rfl
    simpa [createTokenHandle, accessTokenData] using this
  · have := verify_token_mint priv now (refreshTokenData u)
      (cfg.refresh_token_expire_days * 24 * 60 * 60) rfl
    simpa [createTokenHandle, refreshTokenData] using this

/-- Witness for C6 at the default configuration, key 7, time 1000,
aliceUser and default scopes. -/
theorem c6_witness :
    (0 < demoCfg.access_token_expire_minutes ∧
     0 < demoCfg.refresh_token_expire_days) ∧
    (verify_token 7 1000 (createTokenHandle demoCfg 7 1000 aliceUser "access" none).token =
      .ok [("sub", .str "alice-id"), ("username", .str "alice"),
           ("email", .str "alice@x.com"),
           ("roles", .strList ["user"]),
           ("scopes", .strList ["read", "write"]),
           ("type", .str "access_token"),
           ("exp", .num 2800), ("iat", .num 1000)] ∧
     verify_token 7 1000 (createTokenHandle demoCfg 7 1000 aliceUser "refresh" none).token =
      .ok [("sub", .str "alice-id"), ("type", .str "refresh_token"),
           ("exp", .num 605800), ("iat", .num 1000)] ∧
     1000 < 2800 ∧ (1000:Nat) < 605800) :=
  ⟨⟨by decide, by decide⟩, by
    have := c6_mint_verify_roundtrip demoCfg 7 1000 aliceUser none
      (by decide) (by decide)
    simpa [demoCfg, aliceUser, UserRole.value, scopesOrDefault] using this⟩

/-! ## Claim C7 -/

/-- No character of the urlsafe base64 alphabet is the padding
character. -/
lemma b64Char_ne_pad (i : Nat) : b64Char i ≠ '=' := by
  by_cases h : i < 64
  · interval_cases i <;> decide
  · unfold b64Char
    rw [List.getD_eq_getElem?_getD, List.getElem?_eq_none, Option.getD_none]
    · decide
    · have hlen : b64Alphabet.length = 64 := rfl
      omega

/-- The base64 group encoding splits into a padding-free body
followed by a run of padding characters. -/
lemma b64EncodeGroups_split (bs : List Nat) :
    ∃ good pad, b64EncodeGroups bs = good ++ pad ∧
      (∀ c ∈ good, c ≠ '=') ∧ (∀ c ∈ pad, c = '=') := by
  induction bs using b64EncodeGroups.induct with
  | case1 =>
    exact ⟨[], [], rfl, by simp, by simp⟩
  | case2 b1 =>
    refine ⟨[b64Char (b1 / 4), b64Char (b1 % 4 * 16)], ['=', '='], rfl, ?_, by simp⟩
    intro c hc
    simp only [List.mem_cons, List.not_mem_nil, or_false] at hc
    rcases hc with rfl | rfl
    · exact b64Char_ne_pad _
    · exact b64Char_ne_pad _
  | case3 b1 b2 =>
    refine ⟨[b64Char (b1 / 4), b64Char (b1 % 4 * 16 + b2 / 16),
             b64Char (b2 % 16 * 4)], ['='], rfl, ?_, by simp⟩
    intro c hc
    simp only [List.mem_cons, List.not_mem_nil, or_false] at hc
    rcases hc with rfl | rfl | rfl
    · exact b64Char_ne_pad _
    · exact b64Char_ne_pad _
    · exact b64Char_ne_pad _
  | case4 b1 b2 b3 rest ih =>
    obtain ⟨good, pad, heq, hg, hp⟩ := ih
    refine ⟨b64Char (b1 / 4) :: b64Char (b1 % 4 * 16 + b2 / 16) ::
            b64Char (b2 % 16 * 4 + b3 / 64) :: b64Char (b3 % 64) :: good,
            pad, by simp [b64EncodeGroups, heq], ?_, hp⟩
    intro c hc
    simp only [List.mem_cons] at hc
    rcases hc with rfl | rfl | rfl | rfl | hc
    · exact b64Char_ne_pad _
    · exact b64Char_ne_pad _
    · exact b64Char_ne_pad _
    · exact b64Char_ne_pad _
    · exact hg c hc

/-- Right-stripping the padding of a body-plus-padding list leaves
only padding-free characters. -/
lemma mem_rstripEq_ne_pad (good pad : List Char)
    (hg : ∀ c ∈ good, c ≠ '=') (hp : ∀ c ∈ pad, c = '=') :
    ∀ c ∈ rstripEq (good ++ pad), c ≠ '=' := by
  intro c hc
  unfold rstripEq at hc
  rw [List.reverse_append, List.dropWhile_append_of_pos] at hc
  · have h1 : c ∈ List.dropWhile (fun x => decide (x = '=')) good.reverse :=
      List.mem_reverse.mp hc
    have h2 : c ∈ good.reverse := List.dropWhile_subset _ h1
    exact hg c (List.mem_reverse.mp h2)
  · intro a ha
    have := hp a (List.mem_reverse.mp ha)
    simp [this]

/-- The Python int_to_base64url helper never leaves a padding
character in its output. -/
lemma int_to_base64url_no_pad (n : Nat) :
    ∀ c ∈ (int_to_base64url n).toList, c ≠ '=' := by
  intro c hc
  obtain ⟨good, pad, heq, hg, hp⟩ :=
    b64EncodeGroups_split (natToBytesBE n ((bit_length n + 7) / 8))
  have hc2 : c ∈ rstripEq (b64EncodeGroups
      (natToBytesBE n ((bit_length n + 7) / 8))) := hc
  rw [heq] at hc2
  exact mem_rstripEq_ne_pad good pad hg hp c hc2

/-- C7: for every stored public key, get_jwks returns exactly the
one-element key set with kty RSA, use sig, the stable kid, alg RS256,
and the base64url encodings of modulus and exponent; those encodings
contain no padding character.  get_jwks is a pure function of the
public numbers alone, so its output is deterministic and carries no
private-key material. -/
theorem c7_jwks_exact_shape_no_padding (pub : RSAPublicNumbers) :
    get_jwks pub = ⟨[⟨"RSA", "sig", "identity-svc-key-1", "RS256",
        int_to_base64url pub.n, int_to_base64url pub.e⟩]⟩ ∧
    (∀ c ∈ (int_to_base64url pub.n).toList, c ≠ '=') ∧
    (∀ c ∈ (int_to_base64url pub.e).toList, c ≠ '=') :=
  ⟨rfl, int_to_base64url_no_pad pub.n, int_to_base64url_no_pad pub.e⟩

/-! ## Claim C8 -/

/-- C8 counterexample: on the malformed stored hash given by the
empty string, _verify_password raises UnknownHashError from inside
passlib instead of returning false. -/
theorem c8_malformed_hash_raises_cex :
    verify_password (fun _ _ => false) "anysecret" "" =
      .error .unknownHash ∧
    verify_password (fun _ _ => false) "anysecret" "" ≠ .ok false :=
  ⟨rfl, by intro h; exact Except.noConfusion h⟩

/-- C8 amended: for every secret and every stored hash that passlib
cannot identify as a bcrypt hash, _verify_password raises
UnknownHashError (it neither returns false nor reaches the bcrypt
comparison), because the bare delegation to CryptContext.verify adds
no exception handling. -/
theorem c8_unidentified_hash_raises
    (bcryptCheck : String → String → Bool) (secret hash : String)
    (hmal : bcryptIdentified hash = false) :
    verify_password bcryptCheck secret hash = .error .unknownHash := by
  unfold verify_password cryptContextVerify
  simp [hmal]

/-- Witness for the C8 amended theorem at a concrete malformed hash. -/
theorem c8_witness :
    bcryptIdentified "not-a-hash" = false ∧
    verify_password (fun _ _ => true) "s3cret" "not-a-hash" =
      .error .unknownHash :=
  ⟨rfl, c8_unidentified_hash_raises (fun _ _ => true) "s3cret" "not-a-hash" rfl⟩

/-! ## Claim C10 -/

/-- C10: registration validates only the handle and the secret; for
every contact address string whatsoever (including the empty string),
registration succeeds as soon as the handle is at least 3 characters,
the secret at least 6, and neither handle nor address is already
taken, persisting the new principal with the hashed secret and the
default role set when none is supplied. -/
theorem c10_register_ignores_email_shape
    (repo : List User) (hashPwd : String → String) (newId : String)
    (username email password : String) (roles : Option (List UserRole))
    (hu : 3 ≤ username.length) (hp : 6 ≤ password.length)
    (hdupU : exists_by_username repo username = false)
    (hdupE : exists_by_email repo email = false) :
    registerHandle repo hashPwd newId username email password roles =
      .ok (⟨⟨newId, username, email, hashPwd password,
             rolesOrDefault roles, true⟩,
            true, "User registered successfully"⟩,
           repo ++ [⟨newId, username, email, hashPwd password,
             rolesOrDefault roles, true⟩]) := by
  have hA : ¬(username = "" ∨ username.length < 3) := by
    rintro (h | h)
    · rw [h] at hu
      simp at hu
    · omega
  have hB : ¬(password = "" ∨ password.length < 6) := by
    rintro (h | h)
    · rw [h] at hp
      simp at hp
    · omega
  have hval : validate_credentials username password = [] := by
    simp [validate_credentials, hA, hB]
  simp [registerHandle, hval, hdupU, hdupE]

/-- Witness for C10: carol registers with the empty string as contact
address and registration succeeds. -/
theorem c10_witness :
    (3 ≤ ("carol":String).length ∧ 6 ≤ ("secret1":String).length ∧
     exists_by_username demoRepo "carol" = false ∧
     exists_by_email demoRepo "" = false) ∧
    registerHandle demoRepo (fun _ => "$2b$12$newhash") "carol-id"
        "carol" "" "secret1" none =
      .ok (⟨⟨"carol-id", "carol", "", "$2b$12$newhash", [.user], true⟩,
            true, "User registered successfully"⟩,
           demoRepo ++ [⟨"carol-id", "carol", "", "$2b$12$newhash", [.user], true⟩]) :=
  ⟨⟨by decide, by decide, rfl, rfl⟩,
   c10_register_ignores_email_shape demoRepo (fun _ => "$2b$12$newhash")
     "carol-id" "carol" "" "secret1" none (by decide) (by decide) rfl rfl⟩
